import Mathlib

/-!
Verification of the arcade-physics axis-generic separation core.

The embedding below translates, definition by definition, the source files
of the core: the axis projector (Axis.js: BaseAxis, Axis.X, Axis.Y), the
overlap calculator (GetOverlap.js), the collision resolution process
(Process.js: Set, BlockCheck, Check, Run, RunImmovableBody1,
RunImmovableBody2) and the separation orchestrator (Separate.js).

Numbers are modelled as rationals (exact arithmetic where the source uses
IEEE doubles); 2D vectors as pairs of rationals; bodies as a record of the
fields the core reads or writes.  The module-scoped scratch variables of
Process.js become an explicit context record threaded through the phase
functions, and in-place mutation becomes explicit state passing: each
function returns the updated bodies.
-/

namespace Arcade

/-- A 2D vector with `x` and `y` components (position, prev, velocity,
bounce, friction, overlapV are all stored like this in the source). -/
structure Vec2 where
  x : ℚ
  y : ℚ
deriving DecidableEq, Repr

/-- A sided record of booleans: `up`, `right`, `down`, `left` plus the
`none` summary flag (used for `touching`, `blocked` and `checkCollision`). -/
structure Edges where
  up : Bool
  right : Bool
  down : Bool
  left : Bool
  none : Bool
deriving DecidableEq, Repr

/-- The physics type of a body: CONST.DYNAMIC_BODY or CONST.STATIC_BODY. -/
inductive PhysicsType where
  | DYNAMIC
  | STATIC
deriving DecidableEq, Repr

/-- An arcade physics body, restricted to the fields this core reads or
writes.  Extents (`left`, `right`, `up`, `down`) are derived from
`position` and `width`/`height` (per GetOverlapX.js, `body.right` is
`body.x + body.width`), so the separate extent fields of the source object
are represented by the accessors `Axis.lu` / `Axis.rd` below. -/
structure Body where
  position : Vec2
  prev : Vec2
  velocity : Vec2
  width : ℚ
  height : ℚ
  mass : ℚ
  bounce : Vec2
  friction : Vec2
  pushable : Bool
  immovable : Bool
  moves : Bool
  physicsType : PhysicsType
  checkCollision : Edges
  touching : Edges
  blocked : Edges
  overlapV : Vec2
  embedded : Bool
  customSeparateX : Bool
  customSeparateY : Bool
deriving DecidableEq, Repr

/-- The two axis projector singletons, Axis.X and Axis.Y. -/
inductive Axis where
  | X
  | Y
deriving DecidableEq, Repr

namespace Axis

/-- Axis.get: the projection of a vector onto this axis (`v.x` or `v.y`). -/
def get : Axis → Vec2 → ℚ
  | X, v => v.x
  | Y, v => v.y

/-- Axis.set: write the projection of a vector onto this axis. -/
def set : Axis → Vec2 → ℚ → Vec2
  | X, v, val => { v with x := val }
  | Y, v, val => { v with y := val }

/-- Axis.other: the other axis (Y for X, X for Y). -/
def other : Axis → Axis
  | X => Y
  | Y => X

/-- Axis.lu applied to an Edges record: `v.left` for X, `v.up` for Y. -/
def luE : Axis → Edges → Bool
  | X, e => e.left
  | Y, e => e.up

/-- Axis.rd applied to an Edges record: `v.right` for X, `v.down` for Y. -/
def rdE : Axis → Edges → Bool
  | X, e => e.right
  | Y, e => e.down

/-- Axis.lu applied to a body: its lower extent (`body.left` for X,
`body.up` for Y), derived from position. -/
def lu : Axis → Body → ℚ
  | X, b => b.position.x
  | Y, b => b.position.y

/-- Axis.rd applied to a body: its upper extent (`body.right` for X,
`body.down` for Y), derived from position and size. -/
def rd : Axis → Body → ℚ
  | X, b => b.position.x + b.width
  | Y, b => b.position.y + b.height

/-- Axis.setEdges, exactly as the source writes it: BOTH the X and the Y
instance assign `v.up` and `v.down` (the X instance does not write
`left`/`right`), then update `none` from the new values. -/
def setEdges : Axis → Edges → Bool → Bool → Edges
  | X, v, l, r =>
    let up := l || v.up
    let down := r || v.down
    { v with up := up, down := down, none := v.none && !up && !down }
  | Y, v, l, r =>
    let up := l || v.up
    let down := r || v.down
    { v with up := up, down := down, none := v.none && !up && !down }

/-- Axis.getCustomSeparate: reads `customSeparateX` or `customSeparateY`. -/
def getCustomSeparate : Axis → Body → Bool
  | X, b => b.customSeparateX
  | Y, b => b.customSeparateY

/-- Axis.inc: add a scalar to the projected component of a vector. -/
def inc (a : Axis) (v : Vec2) (val : ℚ) : Vec2 :=
  a.set v (a.get v + val)

/-- Axis.delta: `v1.(x|y) - v2.(x|y)`. -/
def delta (a : Axis) (v1 v2 : Vec2) : ℚ :=
  a.get v1 - a.get v2

/-- Axis.inOrder: `|rd(a) - lu(b)| <= |rd(b) - lu(a)|`. -/
def inOrder (ax : Axis) (a b : Body) : Bool :=
  decide (|ax.rd a - ax.lu b| ≤ |ax.rd b - ax.lu a|)

/-- Axis.displaceTo: add `offset` to the projected position when present,
set the projected velocity to `v` when present, and set blocked edges when
either block flag is truthy.  (`body.updateCenter()` recomputes derived
extents, which here are derived from `position` already.) -/
def displaceTo (ax : Axis) (body : Body) (offset : Option ℚ) (v : Option ℚ)
    (blockLu blockRd : Bool) : Body :=
  let body :=
    match offset with
    | some o => { body with position := ax.inc body.position o }
    | Option.none => body
  let body :=
    match v with
    | some vv => { body with velocity := ax.set body.velocity vv }
    | Option.none => body
  if blockLu || blockRd then
    { body with blocked := ax.setEdges body.blocked blockLu blockRd }
  else
    body

/-- In BlockCheck's third case the source evaluates
`axis.rd(body1.blocked.right)`: reading the `.right` (or `.down`) property
of a boolean primitive in JavaScript yields `undefined`, which is falsy,
so this condition is false for every input on either axis. -/
def rdOfBool (_ : Axis) (_ : Bool) : Bool := false

end Axis

/-- The shared tail of GetOverlap once `minBody` (the body with the larger
axial delta) and `maxBody` have been designated: computes the raw overlap,
discards it if the tunneling guard fires or a checkCollision flag vetoes
the touching side, otherwise sets touching (and, against a STATIC partner
outside overlap-only probes, blocked) edges, then stores the result in
both bodies' overlapV and returns it.  Returns
`(overlap, minBody, maxBody)` with the updated bodies in that order. -/
def GetOverlapCore (axis : Axis) (minBody maxBody : Body) (overlapOnly : Bool)
    (maxOverlap : ℚ) : ℚ × Body × Body :=
  let overlap := axis.rd minBody - axis.lu maxBody
  if (overlap > maxOverlap ∧ overlapOnly = false) ∨
      axis.rdE minBody.checkCollision = false ∨
      axis.luE maxBody.checkCollision = false then
    let overlap := (0 : ℚ)
    (overlap,
      { minBody with overlapV := axis.set minBody.overlapV overlap },
      { maxBody with overlapV := axis.set maxBody.overlapV overlap })
  else
    let minBody := { minBody with touching := axis.setEdges minBody.touching false true }
    let maxBody := { maxBody with touching := axis.setEdges maxBody.touching true false }
    let minBody :=
      if maxBody.physicsType = PhysicsType.STATIC ∧ overlapOnly = false then
        { minBody with blocked := axis.setEdges minBody.blocked false true }
      else minBody
    let maxBody :=
      if minBody.physicsType = PhysicsType.STATIC ∧ overlapOnly = false then
        { maxBody with blocked := axis.setEdges maxBody.blocked true false }
      else maxBody
    (overlap,
      { minBody with overlapV := axis.set minBody.overlapV overlap },
      { maxBody with overlapV := axis.set maxBody.overlapV overlap })

/-- GetOverlap (GetOverlap.js): the axial overlap calculator.  Returns
`(overlap, body1, body2)` with the updated bodies in argument order.  If
the two bodies' axial deltas are equal, both are marked embedded, both
overlapV components are zeroed and 0 is returned; otherwise the body with
the larger delta is `minBody` and the rest is `GetOverlapCore`. -/
def GetOverlap (axis : Axis) (body1 body2 : Body) (overlapOnly : Bool)
    (bias : ℚ) : ℚ × Body × Body :=
  let d1 := axis.get body1.position - axis.get body1.prev
  let d2 := axis.get body2.position - axis.get body2.prev
  let maxOverlap := |d1| + |d2| + bias
  if d1 = d2 then
    (0,
      { body1 with embedded := true, overlapV := axis.set body1.overlapV 0 },
      { body2 with embedded := true, overlapV := axis.set body2.overlapV 0 })
  else if d1 < d2 then
    let r := GetOverlapCore axis body2 body1 overlapOnly maxOverlap
    (r.1, r.2.2, r.2.1)
  else
    let r := GetOverlapCore axis body1 body2 overlapOnly maxOverlap
    (r.1, r.2.1, r.2.2)

/-- The module-scoped working values of Process.js, made an explicit
record: pushability, impact velocities, movement classification, side
classification and the absolute overlap, as computed by `Set` (the mass
impacts are filled in later by `Check`; they start at 0 standing for the
source's not-yet-assigned module variables). -/
structure ProcessCtx where
  axis : Axis
  body1Pushable : Bool
  body2Pushable : Bool
  body1MassImpact : ℚ
  body2MassImpact : ℚ
  body1FullImpact : ℚ
  body2FullImpact : ℚ
  body1MovingLeft : Bool
  body1MovingRight : Bool
  body1Stationary : Bool
  body2MovingLeft : Bool
  body2MovingRight : Bool
  body2Stationary : Bool
  body1OnLeft : Bool
  body2OnLeft : Bool
  overlap : ℚ
deriving DecidableEq, Repr

/-- Process.BlockCheck: the one-directional veto.  Returns the block state
(0 = not blocked, 1 = body1 blocked, 2 = body2 blocked) together with the
updated bodies.  The third condition transcribes the source's
`axis.rd(body1.blocked.right)` (see `Axis.rdOfBool`), and the fourth reads
the literal `body1.blocked.left` field on either axis, as the source does. -/
def BlockCheck (c : ProcessCtx) (body1 body2 : Body) : ℕ × Body × Body :=
  if c.body1MovingRight && c.body1OnLeft && c.axis.rdE body2.blocked then
    (1, c.axis.displaceTo body1 (some (-c.overlap)) (some c.body1FullImpact) false true, body2)
  else if c.body1MovingLeft && c.body2OnLeft && c.axis.luE body2.blocked then
    (1, c.axis.displaceTo body1 (some c.overlap) (some c.body1FullImpact) true false, body2)
  else if c.body2MovingRight && c.body2OnLeft && c.axis.rdOfBool body1.blocked.right then
    (2, body1, c.axis.displaceTo body2 (some (-c.overlap)) (some c.body2FullImpact) false true)
  else if c.body2MovingLeft && c.body1OnLeft && body1.blocked.left then
    (2, body1, c.axis.displaceTo body2 (some c.overlap) (some c.body2FullImpact) true false)
  else
    (0, body1, body2)

/-- Process.Set: derives the working values for this pair and axis, then
runs BlockCheck.  Returns the context, the BlockCheck result and the
(possibly BlockCheck-displaced) bodies. -/
def Set (ax : Axis) (b1 b2 : Body) (ov : ℚ) : ProcessCtx × ℕ × Body × Body :=
  let v1 := ax.get b1.velocity
  let v2 := ax.get b2.velocity
  let d1 := ax.delta b1.position b1.prev
  let d2 := ax.delta b2.position b2.prev
  let body1OnLeft := ax.inOrder b1 b2
  let c : ProcessCtx :=
    { axis := ax
      body1Pushable := b1.pushable
      body2Pushable := b2.pushable
      body1MassImpact := 0
      body2MassImpact := 0
      body1FullImpact := v2 - v1 * ax.get b1.bounce
      body2FullImpact := v1 - v2 * ax.get b2.bounce
      body1MovingLeft := decide (d1 < 0)
      body1MovingRight := decide (d1 > 0)
      body1Stationary := decide (d1 = 0)
      body2MovingLeft := decide (d2 < 0)
      body2MovingRight := decide (d2 > 0)
      body2Stationary := decide (d2 = 0)
      body1OnLeft := body1OnLeft
      body2OnLeft := !body1OnLeft
      overlap := |ov| }
  (c, BlockCheck c b1 b2)

/-- Process.Run: computes each body's overlap share and impact velocity by
the pushability cases, then applies `displaceTo` by `side`.  Note that the
source computes `body2OverlapShare` but both displaceTo calls use
`body1OverlapShare` for the position offset; this is transcribed exactly.
An out-of-range `side` is the source's `throw`, modelled as `Option.none`. -/
def Run (c : ProcessCtx) (side : ℕ) (body1 body2 : Body) : Option (Body × Body) :=
  let shares : ℚ × ℚ × Option ℚ × Option ℚ :=
    if c.body1Pushable && c.body2Pushable then
      let totalMass := body1.mass + body2.mass
      let body1OverlapShare := body2.mass / totalMass
      let body2OverlapShare := 1 - body1OverlapShare
      (body1OverlapShare, body2OverlapShare, some c.body1MassImpact, some c.body2MassImpact)
    else if c.body1Pushable then
      (1, 0, some c.body1FullImpact, Option.none)
    else if c.body2Pushable then
      (0, 1, Option.none, some c.body2FullImpact)
    else
      if !c.body1Stationary && !c.body2Stationary then
        let v1 := c.axis.get body1.velocity
        let v2 := c.axis.get body2.velocity
        let totalMass := body1.mass + body2.mass
        let body1OverlapShare := body2.mass / totalMass
        let body2OverlapShare := 1 - body1OverlapShare
        if c.body1MovingLeft && c.body2MovingLeft then
          (body1OverlapShare, body2OverlapShare,
            if c.body1OnLeft then some (min v1 v2) else Option.none,
            if c.body2OnLeft then some (min v1 v2) else Option.none)
        else if c.body1MovingRight && c.body2MovingRight then
          (body1OverlapShare, body2OverlapShare,
            if c.body1OnLeft then Option.none else some (max v1 v2),
            if c.body2OnLeft then Option.none else some (max v1 v2))
        else
          (body1OverlapShare, body2OverlapShare, some 0, some 0)
      else if c.body1Stationary then
        (0, 0, Option.none, some 0)
      else if c.body2Stationary then
        (0, 0, some 0, Option.none)
      else
        (0, 0, Option.none, Option.none)
  let body1OverlapShare := shares.1
  let body1Impact := shares.2.2.1
  let body2Impact := shares.2.2.2
  match side with
  | 0 =>
    some (c.axis.displaceTo body1 (some (c.overlap * body1OverlapShare)) body1Impact (!c.body2Pushable) false,
      c.axis.displaceTo body2 (some (-(c.overlap * body1OverlapShare))) body2Impact false (!c.body1Pushable))
  | 3 =>
    some (c.axis.displaceTo body1 (some (c.overlap * body1OverlapShare)) body1Impact (!c.body2Pushable) false,
      c.axis.displaceTo body2 (some (-(c.overlap * body1OverlapShare))) body2Impact false (!c.body1Pushable))
  | 1 =>
    some (c.axis.displaceTo body1 (some (-(c.overlap * body1OverlapShare))) body1Impact false (!c.body2Pushable),
      c.axis.displaceTo body2 (some (c.overlap * body1OverlapShare)) body2Impact (!c.body1Pushable) false)
  | 2 =>
    some (c.axis.displaceTo body1 (some (-(c.overlap * body1OverlapShare))) body1Impact false (!c.body2Pushable),
      c.axis.displaceTo body2 (some (c.overlap * body1OverlapShare)) body2Impact (!c.body1Pushable) false)
  | _ => Option.none

/-- Process.Check: computes the center-of-momentum velocity and both mass
impact velocities, then dispatches one of the four directional cases to
Run; returns `false` (with unchanged bodies) if none applies.  The outer
Option is Run's unreachable-side throw. -/
def Check (c : ProcessCtx) (body1 body2 : Body) : Option (Bool × Body × Body) :=
  let v1 := c.axis.get body1.velocity
  let v2 := c.axis.get body2.velocity
  let vRel := v1 - v2
  let m1 := body1.mass
  let m2 := body2.mass
  let mTotal := m1 + m2
  let centerOfMassVelocity := (m1 * v1 + m2 * v2) / (m1 + m2)
  let c :=
    { c with
      body1MassImpact := centerOfMassVelocity - c.axis.get body1.bounce * m2 * vRel / mTotal
      body2MassImpact := centerOfMassVelocity + c.axis.get body2.bounce * m1 * vRel / mTotal }
  if c.body1MovingLeft && c.body2OnLeft then
    (Run c 0 body1 body2).map (fun p => (true, p))
  else if c.body2MovingLeft && c.body1OnLeft then
    (Run c 1 body1 body2).map (fun p => (true, p))
  else if c.body1MovingRight && c.body1OnLeft then
    (Run c 2 body1 body2).map (fun p => (true, p))
  else if c.body2MovingRight && c.body2OnLeft then
    (Run c 3 body1 body2).map (fun p => (true, p))
  else
    some (false, body1, body2)

/-- Process.RunImmovableBody1: body1 is immovable, body2 is not.  Returns
the updated body2 (body1 is never written by this function).  With
blockedState 1 the source only zeroes body2's velocity (separation
happened in BlockCheck); otherwise body2 is displaced by the full overlap
with its full-impact velocity and a blocked edge.  If body1 `moves`, body2
is carried along the other axis by body1's other-axis delta times
friction. -/
def RunImmovableBody1 (c : ProcessCtx) (blockedState : ℕ) (body1 body2 : Body) : Body :=
  let body2' :=
    if blockedState = 1 then
      { body2 with velocity := c.axis.set body2.velocity 0 }
    else if c.body1OnLeft then
      c.axis.displaceTo body2 (some c.overlap) (some c.body2FullImpact) true false
    else
      c.axis.displaceTo body2 (some (-c.overlap)) (some c.body2FullImpact) false true
  if body1.moves then
    let body1Delta := c.axis.other.get body1.position - c.axis.other.get body1.prev
    let body1Friction := c.axis.other.get body1.friction
    let newOther := c.axis.other.get body2'.position + body1Friction * body1Delta
    { body2' with position := c.axis.other.set body2'.position newOther }
  else
    body2'

/-- Process.RunImmovableBody2: body2 is immovable, body1 is not.  Returns
the updated body1.  With blockedState 2 the source executes
`axis.get(body1.velocity, 0)` — a read, not a write — so body1 is
returned unchanged in that branch; otherwise body1 is displaced by the
full overlap with its full-impact velocity and a blocked edge, plus the
riding-platform carry when body2 `moves`. -/
def RunImmovableBody2 (c : ProcessCtx) (blockedState : ℕ) (body1 body2 : Body) : Body :=
  let body1' :=
    if blockedState = 2 then
      body1
    else if c.body2OnLeft then
      c.axis.displaceTo body1 (some c.overlap) (some c.body1FullImpact) true false
    else
      c.axis.displaceTo body1 (some (-c.overlap)) (some c.body1FullImpact) false true
  if body2.moves then
    let body2Delta := c.axis.other.get body2.position - c.axis.other.get body2.prev
    let body2Friction := c.axis.other.get body2.friction
    let newOther := c.axis.other.get body1'.position + body2Friction * body2Delta
    { body1' with position := c.axis.other.set body1'.position newOther }
  else
    body1'

/-- Separate (Separate.js): the per-pair per-axis entry point.  Returns
`some (didOverlap, body1, body2)`; `Option.none` is the unreachable throw
inside Run.  The short-circuit returns `(overlap != 0) or (both
embedded)`; otherwise Set/BlockCheck runs and the result is dispatched to
Check (neither body immovable) or to RunImmovableBody1/2. -/
def Separate (axis : Axis) (body1 body2 : Body) (overlapOnly : Bool)
    (bias : ℚ) : Option (Bool × Body × Body) :=
  let r := GetOverlap axis body1 body2 overlapOnly bias
  let overlap := r.1
  let b1 := r.2.1
  let b2 := r.2.2
  let body1Immovable := b1.immovable
  let body2Immovable := b2.immovable
  if overlapOnly || decide (overlap = 0) || (body1Immovable && body2Immovable) ||
      axis.getCustomSeparate b1 || axis.getCustomSeparate b2 then
    some (decide (overlap ≠ 0) || (b1.embedded && b2.embedded), b1, b2)
  else
    let s := Set axis b1 b2 overlap
    let c := s.1
    let blockedState := s.2.1
    let b1' := s.2.2.1
    let b2' := s.2.2.2
    if !body1Immovable && !body2Immovable then
      if blockedState > 0 then
        some (true, b1', b2')
      else
        Check c b1' b2'
    else if body1Immovable then
      some (true, b1', RunImmovableBody1 c blockedState b1' b2')
    else if body2Immovable then
      some (true, RunImmovableBody2 c blockedState b1' b2', b2')
    else
      some (true, b1', b2')

/-! Concrete bodies used as witnesses and counterexamples. -/

/-- An edge record with every flag clear (`none = true`), the per-step
reset state of `touching` and `blocked`. -/
def edgesClear : Edges :=
  { up := false, right := false, down := false, left := false, none := true }

/-- An edge record with every collision edge enabled, the default
`checkCollision` state. -/
def edgesAll : Edges :=
  { up := true, right := true, down := true, left := true, none := false }

/-- A default 10x10 dynamic body at the origin: stationary, pushable, not
immovable, unit mass, zero bounce, all collision edges enabled. -/
def baseBody : Body :=
  { position := ⟨0, 0⟩
    prev := ⟨0, 0⟩
    velocity := ⟨0, 0⟩
    width := 10
    height := 10
    mass := 1
    bounce := ⟨0, 0⟩
    friction := ⟨1, 1⟩
    pushable := true
    immovable := false
    moves := false
    physicsType := PhysicsType.DYNAMIC
    checkCollision := edgesAll
    touching := edgesClear
    blocked := edgesClear
    overlapV := ⟨0, 0⟩
    embedded := false
    customSeparateX := false
    customSeparateY := false }

/-- A body of extent [0,10] that moved 5 to the right this step
(prev x = -5), with velocity 5 on X: the canonical moving attacker. -/
def movA : Body :=
  { baseBody with prev := ⟨-5, 0⟩, velocity := ⟨5, 0⟩ }

/-- A stationary body of extent [6,16] with mass 3: the canonical
stationary target, overlapping `movA` by 4 on X. -/
def stB : Body :=
  { baseBody with position := ⟨6, 0⟩, prev := ⟨6, 0⟩, mass := 3 }

/-- The attacker `movA` made immovable (a scripted moving platform:
`immovable` and `moves` both set), with velocity 2 on X. -/
def immovA : Body :=
  { movA with immovable := true, velocity := ⟨2, 0⟩, moves := true }

/-- The target `stB` already blocked on its right edge. -/
def blockedB : Body :=
  { stB with blocked := { edgesClear with right := true, none := false } }

/-- The target `stB` made immovable (and stationary). -/
def immStat : Body :=
  { stB with immovable := true }

/-- A stationary body of extent [6,16] blocked on its right edge, used as
body1 while `movA` moves right into it as body2. -/
def wallA : Body :=
  { stB with blocked := { edgesClear with right := true, none := false } }

/-- A 1x1 body of extent [0,1] that moved 1 to the right this step. -/
def farA : Body :=
  { baseBody with width := 1, height := 1, prev := ⟨-1, 0⟩ }

/-- A stationary 1x1 body of extent [10,11], disjoint from `farA`. -/
def farB : Body :=
  { baseBody with width := 1, height := 1, position := ⟨10, 0⟩, prev := ⟨10, 0⟩ }

/-- A stationary 1x1 body of extent [0,1]. -/
def stillA : Body :=
  { baseBody with width := 1, height := 1 }

/-- A stationary 1x1 body of extent [10,11], disjoint from `stillA`. -/
def stillB : Body :=
  { baseBody with width := 1, height := 1, position := ⟨10, 0⟩, prev := ⟨10, 0⟩ }

/-- A body of extent [0,10] resting against a wall on its left
(`blocked.left`), with velocity 5 on X but zero displacement this step. -/
def restA : Body :=
  { baseBody with
    velocity := ⟨5, 0⟩
    blocked := { edgesClear with left := true, none := false } }

/-- An immovable body of extent [6,16] that moved 5 to the left this step
(prev x = 11). -/
def platB : Body :=
  { baseBody with position := ⟨6, 0⟩, prev := ⟨11, 0⟩, immovable := true }

/-- A stationary body of extent [0,10]. -/
def embA : Body := baseBody

/-- A stationary body of extent [5,15], overlapping `embA` by 5 on X. -/
def embB : Body :=
  { baseBody with position := ⟨5, 0⟩, prev := ⟨5, 0⟩ }

/-! Helper lemmas. -/

/-- Reading back a component just written returns the written value. -/
theorem get_set (a : Axis) (v : Vec2) (val : ℚ) : a.get (a.set v val) = val := by
  cases a <;> rfl

/-- GetOverlap writes only `touching`, `blocked`, `overlapV` and
`embedded`: position, prev, velocity and immovable of both bodies are
preserved, for every input. -/
theorem GetOverlap_preserves (axis : Axis) (b1 b2 : Body) (oo : Bool) (bias : ℚ) :
    (GetOverlap axis b1 b2 oo bias).2.1.position = b1.position ∧
    (GetOverlap axis b1 b2 oo bias).2.1.prev = b1.prev ∧
    (GetOverlap axis b1 b2 oo bias).2.1.velocity = b1.velocity ∧
    (GetOverlap axis b1 b2 oo bias).2.1.immovable = b1.immovable ∧
    (GetOverlap axis b1 b2 oo bias).2.2.position = b2.position ∧
    (GetOverlap axis b1 b2 oo bias).2.2.prev = b2.prev ∧
    (GetOverlap axis b1 b2 oo bias).2.2.velocity = b2.velocity ∧
    (GetOverlap axis b1 b2 oo bias).2.2.immovable = b2.immovable := by
  simp only [GetOverlap, GetOverlapCore]
  repeat' split
  all_goals exact ⟨rfl, rfl, rfl, rfl, rfl, rfl, rfl, rfl⟩

/-- BlockCheck leaves body1 untouched when body1 is classified as moving
in neither direction (its first two cases need body1 moving; the last two
only displace body2). -/
theorem BlockCheck_fst (c : ProcessCtx) (b1 b2 : Body)
    (h1 : c.body1MovingRight = false) (h2 : c.body1MovingLeft = false) :
    (BlockCheck c b1 b2).2.1 = b1 := by
  unfold BlockCheck
  rw [h1, h2]
  simp only [Bool.false_and, Bool.false_eq_true, if_false]
  split
  · rfl
  · split <;> rfl

/-- Set hands body1 to BlockCheck unchanged, and BlockCheck returns it
unchanged when body1's axial displacement is zero. -/
theorem Set_fst_of_stationary (ax : Axis) (b1 b2 : Body) (ov : ℚ)
    (hstat : ax.get b1.position = ax.get b1.prev) :
    (Set ax b1 b2 ov).2.2.1 = b1 := by
  simp only [Set]
  apply BlockCheck_fst
  · simp [Axis.delta, hstat]
  · simp [Axis.delta, hstat]

/-- The two physics types are distinct (stated as an equation with False
so that simp can discharge the STATIC-body conditionals of GetOverlap). -/
theorem dynamic_ne_static : (PhysicsType.DYNAMIC = PhysicsType.STATIC) = False :=
  eq_false (by decide)

/-! Claim theorems. -/

/-- C1 (counterexample): an immovable body1 that moved this step
(a scripted platform) is displaced and has its velocity overwritten by
BlockCheck when the other body is blocked on the corresponding edge:
`immovA` (immovable, position x 0) ends at position x -4, so Separate
does mutate the position of a body whose immovable flag is true. -/
theorem c1_immovable_mutated_counterexample :
    immovA.immovable = true ∧
    (Separate Axis.X immovA blockedB false 0).map (fun t => t.2.1.position.x) = some (-4) ∧
    ¬(Separate Axis.X immovA blockedB false 0).map (fun t => t.2.1.position.x) =
        some immovA.position.x := by
  refine ⟨rfl, ?_, ?_⟩ <;>
    norm_num [Separate, GetOverlap, GetOverlapCore, Set, BlockCheck, Check, Run,
      RunImmovableBody1, RunImmovableBody2, Axis.displaceTo, Axis.inc, Axis.get,
      Axis.set, Axis.setEdges, Axis.delta, Axis.inOrder, Axis.rdE, Axis.luE,
      Axis.rd, Axis.lu, Axis.rdOfBool, Axis.getCustomSeparate, Axis.other,
      dynamic_ne_static, immovA, blockedB, movA, stB, baseBody, edgesClear, edgesAll]

/-- C1 (amended): for every call to separate where body1.immovable is
true and body1 did not move along the separation axis this step, body1's
position and velocity are unchanged (BlockCheck's first two cases require
body1 to be moving, its other cases and RunImmovableBody1 only write
body2, and the pushable-dispatch path requires neither body immovable). -/
theorem c1_immovable_stationary_unchanged (axis : Axis) (b1 b2 : Body) (oo : Bool) (bias : ℚ)
    (himm : b1.immovable = true)
    (hstat : axis.get b1.position = axis.get b1.prev) :
    (Separate axis b1 b2 oo bias).elim True
      (fun t => t.2.1.position = b1.position ∧ t.2.1.velocity = b1.velocity) := by
  obtain ⟨p1, pr1, v1, i1, p2, pr2, v2, i2⟩ := GetOverlap_preserves axis b1 b2 oo bias
  cases hsep : Separate axis b1 b2 oo bias with
  | none => exact trivial
  | some t =>
    simp only [Option.elim]
    simp only [Separate] at hsep
    split at hsep
    · simp only [Option.some.injEq] at hsep
      rw [← hsep]
      exact ⟨p1, v1⟩
    · rw [i1, himm] at hsep
      simp only [Bool.not_true, Bool.false_and, Bool.false_eq_true, if_false,
        if_true, Bool.true_eq_false] at hsep
      have hs := Set_fst_of_stationary axis ((GetOverlap axis b1 b2 oo bias).2.1)
        ((GetOverlap axis b1 b2 oo bias).2.2) ((GetOverlap axis b1 b2 oo bias).1)
        (by rw [p1, pr1, hstat])
      rw [hs] at hsep
      injection hsep with ht
      rw [← ht]
      exact ⟨p1, v1⟩

/-- Witness for C1 (amended): an immovable stationary body1 hit by a
moving body2 keeps its position and velocity. -/
theorem c1_immovable_stationary_unchanged_witness :
    immStat.immovable = true ∧
    Axis.X.get immStat.position = Axis.X.get immStat.prev ∧
    (Separate Axis.X immStat movA false 0).elim True
      (fun t => t.2.1.position = immStat.position ∧ t.2.1.velocity = immStat.velocity) :=
  ⟨rfl, by norm_num [immStat, stB, baseBody, Axis.get],
    c1_immovable_stationary_unchanged Axis.X immStat movA false 0 rfl
      (by norm_num [immStat, stB, baseBody, Axis.get])⟩

/-- C2 (code bug, evaluated at the failing input): with both bodies
pushable, masses 1 and 3 and overlap 4, the code displaces body2 by
overlap times body2's mass share (3 = 4 times 3/4, landing at x 9), not by
overlap times body1's mass share (1) as the claim states: Run computes
`body2OverlapShare` but applies `body1OverlapShare` to both bodies.  The
velocities do become the mass-impact velocity 5/4 as claimed. -/
theorem c2_mass_share_bug_eval :
    (Separate Axis.X movA stB false 0).map
        (fun t => (t.2.1.position.x, t.2.2.position.x, t.2.1.velocity.x, t.2.2.velocity.x)) =
      some (-3, 9, 5/4, 5/4) ∧
    ¬((9 : ℚ) - stB.position.x = 4 * movA.mass / (movA.mass + stB.mass)) := by
  refine ⟨?_, ?_⟩ <;>
    norm_num [Separate, GetOverlap, GetOverlapCore, Set, BlockCheck, Check, Run,
      Axis.displaceTo, Axis.inc, Axis.get, Axis.set, Axis.setEdges, Axis.delta,
      Axis.inOrder, Axis.rdE, Axis.luE, Axis.rd, Axis.lu, Axis.rdOfBool,
      Axis.getCustomSeparate, Axis.other, dynamic_ne_static, movA, stB, baseBody,
      edgesClear, edgesAll]

/-- C3 (code bug, evaluated at the failing inputs): with exactly one body
pushable the code still applies `body1OverlapShare` to both bodies.  When
only body1 is pushable (share 1), the untouchable body2 is displaced by
the full overlap too (6 to 10); when only body2 is pushable (share held in
the unused `body2OverlapShare`), neither body is displaced at all, so the
pushable body does not absorb the overlap as claimed. -/
theorem c3_one_pushable_bug_eval :
    (Separate Axis.X movA { stB with pushable := false } false 0).map
        (fun t => (t.2.1.position.x, t.2.2.position.x)) = some (-4, 10) ∧
    (Separate Axis.X { movA with pushable := false } stB false 0).map
        (fun t => (t.2.1.position.x, t.2.2.position.x)) = some (0, 6) := by
  refine ⟨?_, ?_⟩ <;>
    norm_num [Separate, GetOverlap, GetOverlapCore, Set, BlockCheck, Check, Run,
      Axis.displaceTo, Axis.inc, Axis.get, Axis.set, Axis.setEdges, Axis.delta,
      Axis.inOrder, Axis.rdE, Axis.luE, Axis.rd, Axis.lu, Axis.rdOfBool,
      Axis.getCustomSeparate, Axis.other, dynamic_ne_static, movA, stB, baseBody,
      edgesClear, edgesAll]

/-- The Set/BlockCheck result for the C4 scenario: body1 is a wall of
extent [6,16] already blocked on its right edge, body2 moves right into it
(extent [0,10], delta 5, overlap 4). -/
def c4run : ProcessCtx × ℕ × Body × Body :=
  Set Axis.X (GetOverlap Axis.X wallA movA false 0).2.1
    (GetOverlap Axis.X wallA movA false 0).2.2 (GetOverlap Axis.X wallA movA false 0).1

/-- A stationary body of vertical extent [0,10] blocked on its up edge. -/
def topA : Body :=
  { baseBody with blocked := { edgesClear with up := true, none := false } }

/-- A body of vertical extent [6,16] that moved 5 upward this step
(prev y = 11), overlapping `topA` by 4 on Y. -/
def upB : Body :=
  { baseBody with position := ⟨0, 6⟩, prev := ⟨0, 11⟩ }

/-- The Set/BlockCheck result for the C4 scenario on the Y axis: body2
moves up into body1, which is blocked on its up (lower) edge. -/
def c4yrun : ProcessCtx × ℕ × Body × Body :=
  Set Axis.Y (GetOverlap Axis.Y topA upB false 0).2.1
    (GetOverlap Axis.Y topA upB false 0).2.2 (GetOverlap Axis.Y topA upB false 0).1

/-- C4 (code bug, evaluated at the failing input): in the very situation
the claim describes — body2 moving toward the upper side, body2 the
lower-side body, body1 blocked on its upper (right) edge — BlockCheck
returns 0 and does not displace body2, because its third condition reads
`axis.rd(body1.blocked.right)`, a property access on a boolean that is
always undefined/falsy (and its fourth condition reads the literal
`.left` field on either axis).  The symmetric lower-side case fails on the
Y axis for the same reason: body2 moving up with body1 blocked on its up
edge also yields 0, because the fourth condition tests `blocked.left`
rather than the axis lower edge `blocked.up`. -/
theorem c4_blockcheck_dead_case_eval :
    c4run.1.body2MovingRight = true ∧
    c4run.1.body2OnLeft = true ∧
    wallA.blocked.right = true ∧
    c4run.2.1 = 0 ∧
    c4run.2.2.2 = (GetOverlap Axis.X wallA movA false 0).2.2 ∧
    c4yrun.1.body2MovingLeft = true ∧
    c4yrun.1.body1OnLeft = true ∧
    topA.blocked.up = true ∧
    c4yrun.2.1 = 0 ∧
    c4yrun.2.2.2 = (GetOverlap Axis.Y topA upB false 0).2.2 := by
  refine ⟨?_, ?_, rfl, ?_, ?_, ?_, ?_, rfl, ?_, ?_⟩ <;>
    norm_num [c4run, c4yrun, Separate, GetOverlap, GetOverlapCore, Set, BlockCheck,
      Axis.displaceTo, Axis.inc, Axis.get, Axis.set, Axis.setEdges, Axis.delta,
      Axis.inOrder, Axis.rdE, Axis.luE, Axis.rd, Axis.lu, Axis.rdOfBool,
      Axis.getCustomSeparate, dynamic_ne_static, wallA, movA, stB, topA, upB,
      baseBody, edgesClear, edgesAll]

/-- C5 (code bug, evaluated at the failing input): the X-axis setEdges
writes the `up`/`down` fields, not `left`/`right` as the claim states, so
after an accepted X-axis overlap the min body's touching lands on `down`
(its `right` stays false) and the max body's lands on `up` (its `left`
stays false). -/
theorem c5_setEdges_x_bug_eval :
    Axis.X.setEdges edgesClear true false =
      { up := true, right := false, down := false, left := false, none := false } ∧
    (GetOverlap Axis.X movA stB false 0).2.1.touching.right = false ∧
    (GetOverlap Axis.X movA stB false 0).2.1.touching.down = true ∧
    (GetOverlap Axis.X movA stB false 0).2.2.touching.left = false ∧
    (GetOverlap Axis.X movA stB false 0).2.2.touching.up = true := by
  refine ⟨rfl, ?_, ?_, ?_, ?_⟩ <;>
    norm_num [GetOverlap, GetOverlapCore, Axis.get, Axis.set, Axis.setEdges,
      Axis.rdE, Axis.luE, Axis.rd, Axis.lu, dynamic_ne_static, movA, stB,
      baseBody, edgesClear, edgesAll]

/-- C6 (counterexample): two disjoint bodies — `farA` of extent [0,1]
having moved 1 this step, `farB` of extent [10,11] stationary — make
computeOverlap return -9 (not 0) and mutate farA's touching record: the
code never tests extent intersection, and the negative measured overlap
passes the `overlap > maxOverlap` tunneling guard. -/
theorem c6_nonoverlap_counterexample :
    Axis.X.rd farA < Axis.X.lu farB ∧
    (GetOverlap Axis.X farA farB false 0).1 = -9 ∧
    ¬(GetOverlap Axis.X farA farB false 0).2.1.touching = farA.touching := by
  refine ⟨?_, ?_, ?_⟩ <;>
    norm_num [GetOverlap, GetOverlapCore, Axis.get, Axis.set, Axis.setEdges,
      Axis.rdE, Axis.luE, Axis.rd, Axis.lu, dynamic_ne_static, farA, farB,
      baseBody, edgesClear, edgesAll]

/-- C6 (amended): computeOverlap returns 0 and leaves both bodies'
touching and blocked records unchanged, for disjoint extents, precisely
when the equal-displacement branch fires or the tunneling guard discards
the measured overlap (measured overlap above maxOverlap outside
overlap-only probes); for other disjoint configurations touching may still
be set and a nonzero value returned. -/
theorem c6_nonoverlap_guarded_noop (axis : Axis) (b1 b2 : Body) (bias : ℚ)
    (hdisj : axis.rd b1 < axis.lu b2 ∨ axis.rd b2 < axis.lu b1)
    (hguard :
      axis.get b1.position - axis.get b1.prev = axis.get b2.position - axis.get b2.prev ∨
      (if axis.get b1.position - axis.get b1.prev < axis.get b2.position - axis.get b2.prev
        then axis.rd b2 - axis.lu b1 else axis.rd b1 - axis.lu b2) >
        |axis.get b1.position - axis.get b1.prev| +
          |axis.get b2.position - axis.get b2.prev| + bias) :
    (GetOverlap axis b1 b2 false bias).1 = 0 ∧
    (GetOverlap axis b1 b2 false bias).2.1.touching = b1.touching ∧
    (GetOverlap axis b1 b2 false bias).2.1.blocked = b1.blocked ∧
    (GetOverlap axis b1 b2 false bias).2.2.touching = b2.touching ∧
    (GetOverlap axis b1 b2 false bias).2.2.blocked = b2.blocked := by
  clear hdisj
  simp only [GetOverlap, GetOverlapCore]
  by_cases he : axis.get b1.position - axis.get b1.prev =
      axis.get b2.position - axis.get b2.prev
  · rw [if_pos he]
    exact ⟨rfl, rfl, rfl, rfl, rfl⟩
  · rw [if_neg he]
    rcases hguard with hg | hg
    · exact absurd hg he
    · by_cases hlt : axis.get b1.position - axis.get b1.prev <
          axis.get b2.position - axis.get b2.prev
      · rw [if_pos hlt] at hg ⊢
        rw [if_pos (Or.inl ⟨hg, trivial⟩)]
        exact ⟨rfl, rfl, rfl, rfl, rfl⟩
      · rw [if_neg hlt] at hg ⊢
        rw [if_pos (Or.inl ⟨hg, trivial⟩)]
        exact ⟨rfl, rfl, rfl, rfl, rfl⟩

/-- Witness for C6 (amended): two stationary disjoint bodies take the
equal-displacement branch, so GetOverlap returns 0 and touching and
blocked stay untouched. -/
theorem c6_nonoverlap_guarded_noop_witness :
    (Axis.X.rd stillA < Axis.X.lu stillB ∨ Axis.X.rd stillB < Axis.X.lu stillA) ∧
    ((GetOverlap Axis.X stillA stillB false 0).1 = 0 ∧
      (GetOverlap Axis.X stillA stillB false 0).2.1.touching = stillA.touching ∧
      (GetOverlap Axis.X stillA stillB false 0).2.1.blocked = stillA.blocked ∧
      (GetOverlap Axis.X stillA stillB false 0).2.2.touching = stillB.touching ∧
      (GetOverlap Axis.X stillA stillB false 0).2.2.blocked = stillB.blocked) :=
  ⟨Or.inl (by norm_num [Axis.rd, Axis.lu, stillA, stillB, baseBody]),
    c6_nonoverlap_guarded_noop Axis.X stillA stillB 0
      (Or.inl (by norm_num [Axis.rd, Axis.lu, stillA, stillB, baseBody]))
      (Or.inl (by norm_num [Axis.get, stillA, stillB, baseBody]))⟩

/-- The Set/BlockCheck result for the C7 scenario: body1 rests blocked on
its left (extent [0,10], velocity 5, zero delta), body2 is an immovable
body of extent [6,16] that moved 5 left this step, so BlockCheck's fourth
case fires and reports body2 blocked (state 2). -/
def c7run : ProcessCtx × ℕ × Body × Body :=
  Set Axis.X (GetOverlap Axis.X restA platB false 0).2.1
    (GetOverlap Axis.X restA platB false 0).2.2 (GetOverlap Axis.X restA platB false 0).1

/-- C7 (code bug, evaluated at the failing input): with body2 immovable,
body1 not, and BlockCheck returning 2, RunImmovableBody2's first branch
executes `axis.get(body1.velocity, 0)` — a read, not a write — so body1's
axis velocity stays 5 instead of being zeroed as the claim (and the
sibling RunImmovableBody1, which uses `axis.set`) intends. -/
theorem c7_velocity_not_zeroed_eval :
    platB.immovable = true ∧
    restA.immovable = false ∧
    c7run.2.1 = 2 ∧
    (Separate Axis.X restA platB false 0).map
        (fun t => (t.2.1.velocity.x, t.2.1.position.x)) = some (5, 0) ∧
    restA.velocity.x = 5 := by
  refine ⟨rfl, rfl, ?_, ?_, rfl⟩ <;>
    norm_num [c7run, Separate, GetOverlap, GetOverlapCore, Set, BlockCheck, Check,
      Run, RunImmovableBody1, RunImmovableBody2, Axis.displaceTo, Axis.inc,
      Axis.get, Axis.set, Axis.setEdges, Axis.delta, Axis.inOrder, Axis.rdE,
      Axis.luE, Axis.rd, Axis.lu, Axis.rdOfBool, Axis.getCustomSeparate,
      Axis.other, dynamic_ne_static, restA, platB, baseBody, edgesClear, edgesAll]

/-- C8: for every call to GetOverlap where the two bodies' axial
displacements are equal, both embedded flags are set, both overlapV
components on the axis are zeroed, and 0 is returned. -/
theorem c8_equal_displacement_embeds (axis : Axis) (b1 b2 : Body) (oo : Bool) (bias : ℚ)
    (h : axis.get b1.position - axis.get b1.prev = axis.get b2.position - axis.get b2.prev) :
    (GetOverlap axis b1 b2 oo bias).1 = 0 ∧
    (GetOverlap axis b1 b2 oo bias).2.1.embedded = true ∧
    (GetOverlap axis b1 b2 oo bias).2.2.embedded = true ∧
    axis.get (GetOverlap axis b1 b2 oo bias).2.1.overlapV = 0 ∧
    axis.get (GetOverlap axis b1 b2 oo bias).2.2.overlapV = 0 := by
  simp only [GetOverlap]
  rw [if_pos h]
  exact ⟨rfl, rfl, rfl, get_set axis b1.overlapV 0, get_set axis b2.overlapV 0⟩

/-- Witness for C8: two stationary overlapping bodies. -/
theorem c8_equal_displacement_embeds_witness :
    (Axis.X.get embA.position - Axis.X.get embA.prev =
      Axis.X.get embB.position - Axis.X.get embB.prev) ∧
    ((GetOverlap Axis.X embA embB false 0).1 = 0 ∧
      (GetOverlap Axis.X embA embB false 0).2.1.embedded = true ∧
      (GetOverlap Axis.X embA embB false 0).2.2.embedded = true ∧
      Axis.X.get (GetOverlap Axis.X embA embB false 0).2.1.overlapV = 0 ∧
      Axis.X.get (GetOverlap Axis.X embA embB false 0).2.2.overlapV = 0) :=
  ⟨by norm_num [embA, embB, baseBody, Axis.get],
    c8_equal_displacement_embeds Axis.X embA embB false 0
      (by norm_num [embA, embB, baseBody, Axis.get])⟩

/-- C9: after every call to GetOverlap on a given axis, both bodies'
overlapV components on that axis are equal to the value returned (hence
equal to each other in sign and magnitude). -/
theorem c9_overlapV_symmetric (axis : Axis) (b1 b2 : Body) (oo : Bool) (bias : ℚ) :
    axis.get (GetOverlap axis b1 b2 oo bias).2.1.overlapV = (GetOverlap axis b1 b2 oo bias).1 ∧
    axis.get (GetOverlap axis b1 b2 oo bias).2.2.overlapV = (GetOverlap axis b1 b2 oo bias).1 := by
  simp only [GetOverlap, GetOverlapCore]
  repeat' split
  all_goals simp [get_set]

/-- C10: whenever GetOverlap reports overlap 0, Separate short-circuits:
it returns exactly the conjunction of the two embedded flags as its
did-overlap result (true when the equal-displacement branch embedded both
bodies, false when either embedded flag is clear), and no position or
velocity is mutated. -/
theorem c10_zero_overlap_embedded_return (axis : Axis) (b1 b2 : Body) (oo : Bool) (bias : ℚ)
    (h : (GetOverlap axis b1 b2 oo bias).1 = 0) :
    Separate axis b1 b2 oo bias =
      some ((GetOverlap axis b1 b2 oo bias).2.1.embedded &&
              (GetOverlap axis b1 b2 oo bias).2.2.embedded,
        (GetOverlap axis b1 b2 oo bias).2.1, (GetOverlap axis b1 b2 oo bias).2.2) ∧
    (GetOverlap axis b1 b2 oo bias).2.1.position = b1.position ∧
    (GetOverlap axis b1 b2 oo bias).2.1.velocity = b1.velocity ∧
    (GetOverlap axis b1 b2 oo bias).2.2.position = b2.position ∧
    (GetOverlap axis b1 b2 oo bias).2.2.velocity = b2.velocity := by
  obtain ⟨p1, -, v1, -, p2, -, v2, -⟩ := GetOverlap_preserves axis b1 b2 oo bias
  refine ⟨?_, p1, v1, p2, v2⟩
  simp [Separate, h]

/-- Witness for C10: two stationary overlapping bodies report overlap 0,
embed both, and Separate returns true without moving anything. -/
theorem c10_zero_overlap_embedded_return_witness :
    (GetOverlap Axis.X embA embB false 0).1 = 0 ∧
    (Separate Axis.X embA embB false 0 =
      some ((GetOverlap Axis.X embA embB false 0).2.1.embedded &&
              (GetOverlap Axis.X embA embB false 0).2.2.embedded,
        (GetOverlap Axis.X embA embB false 0).2.1, (GetOverlap Axis.X embA embB false 0).2.2) ∧
      (GetOverlap Axis.X embA embB false 0).2.1.position = embA.position ∧
      (GetOverlap Axis.X embA embB false 0).2.1.velocity = embA.velocity ∧
      (GetOverlap Axis.X embA embB false 0).2.2.position = embB.position ∧
      (GetOverlap Axis.X embA embB false 0).2.2.velocity = embB.velocity) :=
  ⟨by norm_num [GetOverlap, embA, embB, baseBody, Axis.get, Axis.set],
    c10_zero_overlap_embedded_return Axis.X embA embB false 0
      (by norm_num [GetOverlap, embA, embB, baseBody, Axis.get, Axis.set])⟩

end Arcade
